import Mathlib

/-!
Verification of the Allay markup parser (allay/parser.py, allay/json_parser.py)
against its natural-language specification.

The embedding models Python values as the inductive `PyVal` (dicts are
insertion-ordered association lists, mirroring CPython dict semantics for
assignment and the `|` merge operator), exceptions as `PyError`, and the
parser instance state (`self.patterns`, `self.templates`, `self.parent`,
`self.indent`, `self.json_dump`) as `ParserState`.  The external token
stream library (tokenstream) is out of scope of the repository; parsing
functions therefore operate on lists of already-lexed tokens (`Token`),
whose kinds correspond one-to-one to the named regex kinds declared in
`Parser.primary_syntax_definitions` (parser.py lines 148-178) and in
`parse_json` (json_parser.py).  Recursive parse functions carry a fuel
parameter; running out of fuel yields the model-internal error
`PyError.fuelExhausted`, which never occurs at the fuel values used in the
theorems below.  Exception messages keep the source wording except that
the single-quote characters the f-strings place around interpolated names
are elided, and the stream library's own expect-failure messages are not
modelled verbatim; no claim depends on message text, only on exception
class.
-/

/-- Model of a Python value as produced and consumed by the parser:
strings, ints, booleans, lists and insertion-ordered dicts.  `float` keeps
the source text of a float literal (json_parser.py can produce floats; no
claim inspects float arithmetic, so the literal text is retained). -/
inductive PyVal where
  | str (s : String)
  | int (n : Int)
  | float (raw : String)
  | bool (b : Bool)
  | list (xs : List PyVal)
  | dict (entries : List (String × PyVal))
  deriving Repr

/-- Model of the exception classes that can escape the parser:
`invalidSyntax` is tokenstream's InvalidSyntax (used both for malformed
tokens and, in parser.py lines 436-437 and 606-607, for unknown
template/pattern names); `definitionAlreadyExists` is the
DefinitionAlreadyExists class declared in parser.py lines 11-12;
`indexError`, `keyError` and `typeError` model the corresponding built-in
Python exceptions; `jsonDecodeError` models json.JSONDecodeError raised by
json.loads; `fuelExhausted` is a model artifact (insufficient fuel). -/
inductive PyError where
  | invalidSyntax (msg : String)
  | definitionAlreadyExists (msg : String)
  | indexError
  | keyError (key : String)
  | typeError
  | jsonDecodeError
  | fuelExhausted
  deriving DecidableEq, Repr

/-- Tokens of the markup grammar: one constructor per named token kind of
`Parser.primary_syntax_definitions` (parser.py lines 148-178) together
with the extra kinds declared locally (`comma`, `pattern`, `template`,
`paren`, `null`) and the kinds of json_parser.py (`colon`, `number`;
`curly`/`bracket` reuse the brace/square-bracket constructors).  String
tokens keep their raw source text including the surrounding quotes, as the
Python code indexes into that raw text with `value[1:-1]`. -/
inductive Token where
  | escape (v : String)
  | sqrbrOpen
  | sqrbrClose
  | braceOpen
  | braceClose
  | scopeOpen
  | scopeClose
  | parenOpen
  | parenClose
  | equals
  | comma
  | colon
  | arrow
  | nullT
  | text (v : String)
  | hexCode (v : String)
  | url (v : String)
  | integer (v : String)
  | number (v : String)
  | color (v : String)
  | keybind (v : String)
  | selector (v : String)
  | boolean (v : String)
  | string (v : String)
  | kwJson (v : String)
  | kwScope (v : String)
  | kwColor
  | kwLink
  | kwString (v : String)
  | kwBool (v : String)
  | kwInteger (v : String)
  | kwStandalone (v : String)
  | pattern (v : String)
  | template (v : String)
  deriving DecidableEq, Repr

/-- A modifier set / standalone field map: an insertion-ordered list of
key-value pairs, the model of a Python dict. -/
abbrev Dict := List (String × PyVal)

/-- First-match lookup in an association list (Python `d[k]` / `k in d`). -/
def lookupA {α : Type} : List (String × α) → String → Option α
  | [], _ => none
  | (k, v) :: rest, key => if k = key then some v else lookupA rest key

/-- Python dict assignment `d[k] = v`: replaces the value in place if the
key exists (keeping its position) and appends otherwise. -/
def setKeyA {α : Type} : List (String × α) → String → α → List (String × α)
  | [], key, v => [(key, v)]
  | (k, w) :: rest, key, v =>
    if k = key then (key, v) :: rest else (k, w) :: setKeyA rest key v

/-- Python dict merge `a | b` (and `a |= b`): entries of `b` are written
into `a` left to right, so on a key collision the value from `b` wins. -/
def dictMerge (a b : Dict) : Dict :=
  b.foldl (fun acc kv => setKeyA acc kv.1 kv.2) a

/-- Python truthiness for the values the parser stores in `self.parent`. -/
def pyTruthy : PyVal → Bool
  | .str s => s ≠ ""
  | .int n => n ≠ 0
  | .float _ => true
  | .bool b => b
  | .list xs => !xs.isEmpty
  | .dict d => !d.isEmpty

/-- `self.parent or ""` (parser.py line 628). -/
def parentOr (p : PyVal) : PyVal :=
  if pyTruthy p then p else PyVal.str ""

/-- The opening curly brace character. -/
def lbraceC : Char := Char.ofNat 123

/-- The closing curly brace character. -/
def rbraceC : Char := Char.ofNat 125

/-- The characters Python `str.isspace()` accepts (and `str.strip()` with
no argument removes): the ASCII whitespace controls 0x09-0x0D, the
information separators 0x1C-0x1F, space, NEL 0x85, NBSP 0xA0, the Ogham
space mark 0x1680, the Unicode spaces 0x2000-0x200A (including the thin
space 0x2009 that appears in the repository's own tests), the line and
paragraph separators 0x2028-0x2029, the narrow no-break space 0x202F, the
medium mathematical space 0x205F and the ideographic space 0x3000. -/
def pyIsSpace (c : Char) : Bool :=
  let n := c.toNat
  (9 ≤ n && n ≤ 13) || (28 ≤ n && n ≤ 32) || n == 133 || n == 160 ||
    n == 5760 || (8192 ≤ n && n ≤ 8202) || n == 8232 || n == 8233 ||
    n == 8239 || n == 8287 || n == 12288

/-- Python `str.strip()` with no argument: removes leading and trailing
characters of the Unicode whitespace set `pyIsSpace`. -/
def pyStrip (s : String) : String :=
  String.mk (((s.data.dropWhile pyIsSpace).reverse.dropWhile
    pyIsSpace).reverse)

/-- Whether `pat` occurs as a contiguous subsequence of `s`
(Python `pat in s` / `s.find(pat) != -1`). -/
def containsSub : List Char → List Char → Bool
  | [], pat => pat.isPrefixOf []
  | c :: rest, pat => pat.isPrefixOf (c :: rest) || containsSub rest pat

/-- String-level wrapper for `containsSub`. -/
def hasSubstr (s pat : String) : Bool :=
  containsSub s.data pat.data

/-- Python `s.startswith(pre)`. -/
def pyStartsWith (s pre : String) : Bool :=
  pre.data.isPrefixOf s.data

/-- Python `s[1:-1]`: drop the first and the last character. -/
def dropFirstLast (s : List Char) : List Char :=
  (s.drop 1).dropLast

/-- Fuel-indexed scan for `pyReplace`; every step consumes at least one
character, so fuel equal to the input length always suffices. -/
def pyReplaceF (pat rep : List Char) : Nat → List Char → List Char
  | 0, s => s
  | fuel + 1, s =>
    match s with
    | [] => []
    | c :: rest =>
      if pat ≠ [] ∧ pat.isPrefixOf (c :: rest) then
        rep ++ pyReplaceF pat rep fuel (rest.drop (pat.length - 1))
      else
        c :: pyReplaceF pat rep fuel rest

/-- Python `s.replace(pat, rep)` for a non-empty pattern: scan left to
right, replace every non-overlapping occurrence, never rescanning the
replacement text.  (CPython treats an empty pattern specially, inserting
`rep` between characters; the placeholders substituted by the parser are
never empty, so the empty pattern is mapped to the identity here.) -/
def pyReplace (pat rep s : List Char) : List Char :=
  pyReplaceF pat rep s.length s

/-- The textual placeholder `%i` substituted by template expansion. -/
def placeholder (i : Nat) : List Char :=
  '%' :: (toString i).data

/-- The substitution loop of `Parser.parse_standalone` (parser.py lines
444-446): for each supplied argument, in ascending index order starting at
`i`, textually replace every occurrence of `%index` in the serialized
template. -/
def substituteArgsFrom (i : Nat) : List String → List Char → List Char
  | [], s => s
  | a :: rest, s => substituteArgsFrom (i + 1) rest (pyReplace (placeholder i) a.data s)

/-- Argument substitution on the serialized template, indices from 0. -/
def substituteArgs (s : String) (args : List String) : String :=
  String.mk (substituteArgsFrom 0 args s.data)

/-- Four lowercase hexadecimal digits of `n % 65536`. -/
def hex4 (n : Nat) : List Char :=
  let d := fun (k : Nat) => (Nat.digitChar (n / k % 16))
  [d 4096, d 256, d 16, d 1]

/-- JSON string escaping as performed by Python `json.dumps` with default
options (`ensure_ascii=True`): the two-character escapes for quote,
backslash and the common control characters, `\uXXXX` for the remaining
control characters and for all non-ASCII characters. -/
def jsonEscapeChar (c : Char) : List Char :=
  if c = '"' then ['\\', '"']
  else if c = '\\' then ['\\', '\\']
  else if c = '\n' then ['\\', 'n']
  else if c = '\t' then ['\\', 't']
  else if c = '\r' then ['\\', 'r']
  else if c = Char.ofNat 8 then ['\\', 'b']
  else if c = Char.ofNat 12 then ['\\', 'f']
  else if c.toNat < 32 || c.toNat ≥ 127 then '\\' :: 'u' :: hex4 c.toNat
  else [c]

mutual
/-- `json.dumps` with default separators, as applied by
`Parser.parse_standalone` (line 442) to a stored template fragment. -/
def dumpsV : PyVal → List Char
  | .str s => '"' :: (s.data.map jsonEscapeChar).flatten ++ ['"']
  | .int n => (toString n).data
  | .float raw => raw.data
  | .bool b => if b then "true".data else "false".data
  | .list xs => '[' :: dumpsItems xs ++ [']']
  | .dict d => lbraceC :: dumpsEntries d ++ [rbraceC]

/-- List elements serialized with the default `", "` separator. -/
def dumpsItems : List PyVal → List Char
  | [] => []
  | [x] => dumpsV x
  | x :: y :: rest => dumpsV x ++ ',' :: ' ' :: dumpsItems (y :: rest)

/-- Dict entries serialized with the default `", "` and `": "` separators. -/
def dumpsEntries : List (String × PyVal) → List Char
  | [] => []
  | [(k, v)] => '"' :: (k.data.map jsonEscapeChar).flatten ++ '"' :: ':' :: ' ' :: dumpsV v
  | (k, v) :: e :: rest =>
    '"' :: (k.data.map jsonEscapeChar).flatten ++ '"' :: ':' :: ' ' :: dumpsV v
      ++ ',' :: ' ' :: dumpsEntries (e :: rest)
end

/-- String-level `json.dumps`. -/
def pyJsonDumps (v : PyVal) : String :=
  String.mk (dumpsV v)

/-- Whitespace skipping inside `json.loads`. -/
def skipWs (s : List Char) : List Char :=
  s.dropWhile (fun c => c = ' ' || c = '\t' || c = '\n' || c = '\r')

/-- Whether a character is a hexadecimal digit. -/
def isHexDig (c : Char) : Bool :=
  c.isDigit || ('a' ≤ c && c ≤ 'f') || ('A' ≤ c && c ≤ 'F')

/-- Numeric value of a hexadecimal digit character (0 for non-digits;
callers check `isHexDig` first). -/
def hexVal (c : Char) : Nat :=
  if '0' ≤ c ∧ c ≤ '9' then c.toNat - '0'.toNat
  else if 'a' ≤ c ∧ c ≤ 'f' then c.toNat - 'a'.toNat + 10
  else if 'A' ≤ c ∧ c ≤ 'F' then c.toNat - 'A'.toNat + 10
  else 0

/-- JSON string-body reader for `json.loads`: consumes characters up to
the closing quote, resolving the standard escapes.  Returns the decoded
characters and the rest of the input after the closing quote. -/
def loadsString : Nat → List Char → Option (List Char × List Char)
  | 0, _ => none
  | _, [] => none
  | fuel + 1, c :: rest =>
    if c = '"' then some ([], rest)
    else if c = '\\' then
      match rest with
      | [] => none
      | e :: rest2 =>
        if e = 'u' then
          match rest2 with
          | a :: b :: c2 :: d :: rest3 =>
            if isHexDig a && isHexDig b && isHexDig c2 && isHexDig d then
              let n := ((hexVal a * 16 + hexVal b) * 16 + hexVal c2) * 16 + hexVal d
              match loadsString fuel rest3 with
              | none => none
              | some (body, after) => some (Char.ofNat n :: body, after)
            else none
          | _ => none
        else
          let decoded : Option Char :=
            if e = '"' then some '"'
            else if e = '\\' then some '\\'
            else if e = '/' then some '/'
            else if e = 'n' then some '\n'
            else if e = 't' then some '\t'
            else if e = 'r' then some '\r'
            else if e = 'b' then some (Char.ofNat 8)
            else if e = 'f' then some (Char.ofNat 12)
            else none
          match decoded with
          | none => none
          | some ch =>
            match loadsString fuel rest2 with
            | none => none
            | some (body, after) => some (ch :: body, after)
    else
      match loadsString fuel rest with
      | none => none
      | some (body, after) => some (c :: body, after)

mutual
/-- JSON value reader for `json.loads` as called by
`Parser.parse_standalone` (line 449): recursive descent over the
character list.  Exponent/fraction forms of numbers are not produced by
`pyJsonDumps` on the values this model constructs and are rejected. -/
def loadsValue : Nat → List Char → Option (PyVal × List Char)
  | 0, _ => none
  | fuel + 1, s =>
    match skipWs s with
    | [] => none
    | c :: rest =>
      if c = '[' then
        match skipWs rest with
        | ']' :: rest2 => some (.list [], rest2)
        | _ =>
          match loadsItems fuel rest with
          | none => none
          | some (xs, rest2) =>
            match skipWs rest2 with
            | ']' :: rest3 => some (.list xs, rest3)
            | _ => none
      else if c = lbraceC then
        match skipWs rest with
        | c2 :: rest2 =>
          if c2 = rbraceC then some (.dict [], rest2)
          else
            match loadsEntries fuel (c2 :: rest2) with
            | none => none
            | some (d, rest3) =>
              match skipWs rest3 with
              | c3 :: rest4 =>
                if c3 = rbraceC then
                  -- Python builds the dict by successive assignment, so a
                  -- duplicated key keeps its first position and last value.
                  some (.dict (d.foldl (fun acc kv => setKeyA acc kv.1 kv.2) []), rest4)
                else none
              | [] => none
        | [] => none
      else if c = '"' then
        match loadsString fuel rest with
        | none => none
        | some (body, after) => some (.str (String.mk body), after)
      else if c = 't' then
        match rest with
        | 'r' :: 'u' :: 'e' :: rest2 => some (.bool true, rest2)
        | _ => none
      else if c = 'f' then
        match rest with
        | 'a' :: 'l' :: 's' :: 'e' :: rest2 => some (.bool false, rest2)
        | _ => none
      else if c = '-' || c.isDigit then
        let (digits, rest2) := (if c = '-' then rest else c :: rest).span Char.isDigit
        if digits = [] then none
        else
          let n : Nat := digits.foldl (fun acc d => acc * 10 + (d.toNat - '0'.toNat)) 0
          some (.int (if c = '-' then -(n : Int) else (n : Int)), rest2)
      else none

/-- Comma-separated JSON array elements. -/
def loadsItems : Nat → List Char → Option (List PyVal × List Char)
  | 0, _ => none
  | fuel + 1, s =>
    match loadsValue fuel s with
    | none => none
    | some (v, rest) =>
      match skipWs rest with
      | ',' :: rest2 =>
        match loadsItems fuel rest2 with
        | none => none
        | some (xs, rest3) => some (v :: xs, rest3)
      | _ => some ([v], rest)

/-- Comma-separated JSON object entries. -/
def loadsEntries : Nat → List Char → Option (Dict × List Char)
  | 0, _ => none
  | fuel + 1, s =>
    match skipWs s with
    | '"' :: rest =>
      match loadsString fuel rest with
      | none => none
      | some (key, rest2) =>
        match skipWs rest2 with
        | ':' :: rest3 =>
          match loadsValue fuel rest3 with
          | none => none
          | some (v, rest4) =>
            match skipWs rest4 with
            | ',' :: rest5 =>
              match loadsEntries fuel rest5 with
              | none => none
              | some (d, rest6) => some ((String.mk key, v) :: d, rest6)
            | _ => some ([(String.mk key, v)], rest4)
        | _ => none
    | _ => none
end

/-- String-level `json.loads`: a full JSON document (trailing whitespace
allowed, trailing garbage rejected, as in Python). -/
def pyJsonLoads (s : String) : Option PyVal :=
  match loadsValue (s.data.length + 1) s.data with
  | none => none
  | some (v, rest) => if skipWs rest = [] then some v else none

/-- The template-expansion core of `Parser.parse_standalone` (parser.py
lines 441-449): serialize the stored fragment with `json.dumps`, replace
each `%index` placeholder by the corresponding argument in ascending
index order, and re-parse the text with `json.loads`. -/
def expand_template_value (stored : PyVal) (args : List String) : Option PyVal :=
  pyJsonLoads (substituteArgs (pyJsonDumps stored) args)

/-- `Parser.get_string` (parser.py lines 145-146) applied to the raw text
of a string token: strip the surrounding quotes with `[1:-1]` and undo
escaped double quotes with `.replace`. -/
def get_string_val (raw : String) : String :=
  String.mk (pyReplace ['\\', '"'] ['"'] (dropFirstLast raw.data))

/-- `unquote_string` of json_parser.py: strip the quotes, then resolve
every backslash-escape via the ESCAPE_SEQUENCES table, which only knows
the newline, double-quote and backslash escapes; any other escape raises
KeyError inside the regex callback. -/
def unquote_string_json (raw : String) : Except PyError String :=
  let rec go : List Char → Except PyError (List Char)
    | [] => .ok []
    | '\\' :: e :: rest =>
      let repl : Option Char :=
        if e = 'n' then some '\n'
        else if e = '"' then some '"'
        else if e = '\\' then some '\\'
        else none
      match repl with
      | none => .error (.keyError (String.mk ['\\', e]))
      | some ch =>
        match go rest with
        | .error err => .error err
        | .ok body => .ok (ch :: body)
    | c :: rest =>
      match go rest with
      | .error err => .error err
      | .ok body => .ok (c :: body)
  match go (dropFirstLast raw.data) with
  | .error err => .error err
  | .ok body => .ok (String.mk body)

/-- The per-instance mutable state of a `Parser` object (parser.py lines
31-40): `patterns` maps internal names (with the `@` sigil) to modifier
sets, `templates` maps internal names (with the `$` sigil) to stored
output-tree fragments, `parent` is the parent style (the empty string or
a modifier-set dict), and `indent` / `json_dump` are the stored defaults
consulted by `parse`. -/
structure ParserState where
  patterns : List (String × Dict)
  templates : List (String × PyVal)
  parent : PyVal
  indent : Option Int
  json_dump : Option Bool
  deriving Repr

/-- Truthiness of an optional int argument (Python `if indent:`). -/
def optIntTruthy : Option Int → Bool
  | none => false
  | some n => n ≠ 0

/-- Truthiness of an optional bool argument (Python `if json_dump:`). -/
def optBoolTruthy : Option Bool → Bool
  | none => false
  | some b => b

/-- `Parser.set_defaults` (parser.py lines 94-106): each stored default is
overwritten only when the corresponding argument is truthy, so `0`,
`False` and `None` are ignored. -/
def set_defaults (st : ParserState) (indent : Option Int)
    (json_dump : Option Bool) : ParserState :=
  let st1 := if optIntTruthy indent then { st with indent := indent } else st
  if optBoolTruthy json_dump then { st1 with json_dump := json_dump } else st1

/-- `Parser.__init__` (parser.py lines 25-40): the options are assigned
directly to the instance attributes first and `set_defaults` is called
afterwards, so even falsy arguments are stored. -/
def mkParser (indent : Option Int) (json_dump : Option Bool) : ParserState :=
  set_defaults
    { patterns := [], templates := [], parent := PyVal.str "",
      indent := indent, json_dump := json_dump }
    indent json_dump

/-- A parser in its freshly constructed default configuration. -/
def initParser : ParserState := mkParser none none

/-- The `json_dump` resolution at the top of `Parser.parse` (parser.py
lines 63-64): an explicit argument wins; otherwise the stored default is
used when it is not None, else True. -/
def resolve_json_dump (st : ParserState) (arg : Option Bool) : Bool :=
  match arg with
  | some b => b
  | none => st.json_dump.getD true

/-- The `indent` resolution at the top of `Parser.parse` (parser.py lines
60-61): a falsy argument falls back to the stored default when that is
truthy. -/
def resolve_indent (st : ParserState) (arg : Option Int) : Option Int :=
  if !optIntTruthy arg && optIntTruthy st.indent then st.indent else arg

/-- `stream.expect((kind, literal))` for a payload-free token: consume it
or fail with the stream library's InvalidSyntax.  (The exact wording of
the stream library's error messages is not modelled; only the exception
class matters to the parser.) -/
def expectTok (t : Token) (toks : List Token) : Except PyError (List Token) :=
  match toks with
  | t2 :: rest => if t2 = t then .ok rest else .error (.invalidSyntax "Expected token")
  | [] => .error (.invalidSyntax "Expected token")

/-- `stream.get((kind, literal))`: consume the next token if it matches,
otherwise leave the stream unchanged. -/
def getTok (t : Token) (toks : List Token) : Option (List Token) :=
  match toks with
  | t2 :: rest => if t2 = t then some rest else none
  | _ => none

/-- `stream.expect("string")`: the raw quoted text of a string token. -/
def expectString (toks : List Token) : Except PyError (String × List Token) :=
  match toks with
  | .string v :: rest => .ok (v, rest)
  | _ => .error (.invalidSyntax "Expected string")

/-- `Parser.get_string` (parser.py lines 145-146) at the stream level. -/
def get_string_tok (toks : List Token) : Except PyError (String × List Token) :=
  match expectString toks with
  | .error e => .error e
  | .ok (raw, rest) => .ok (get_string_val raw, rest)

/-- `Parser.error_if_scope` (parser.py lines 359-361): fail when the
`scoped` flag provided around hover-text parsing is set. -/
def error_if_scope (sc : Bool) : Except PyError Unit :=
  if sc then .error (.invalidSyntax "Unexpected scope") else .ok ()

/-- `parse_json` of json_parser.py: the minimal JSON literal reader driven
by the shared token stream.  `bool(boolean.value)` in the source converts
the non-empty matched text, so both `true` and `false` literals become
Python True; the model reproduces that faithfully. -/
def parse_json_tok : Nat → List Token → Except PyError (PyVal × List Token)
  | 0, _ => .error .fuelExhausted
  | fuel + 1, toks =>
    match toks with
    | .braceOpen :: r =>
      let rec objLoop (fuel2 : Nat) (acc : Dict) (toks2 : List Token) :
          Except PyError (Dict × List Token) :=
        match fuel2 with
        | 0 => .error .fuelExhausted
        | fuel3 + 1 =>
          match toks2 with
          | .string s :: r2 =>
            match unquote_string_json s with
            | .error e => .error e
            | .ok key =>
              match expectTok .colon r2 with
              | .error e => .error e
              | .ok r3 =>
                match parse_json_tok fuel3 r3 with
                | .error e => .error e
                | .ok (v, r4) =>
                  match getTok .comma r4 with
                  | some r5 => objLoop fuel3 (setKeyA acc key v) r5
                  | none => .ok (setKeyA acc key v, r4)
          | _ => .ok (acc, toks2)
      match objLoop (fuel + 1) [] r with
      | .error e => .error e
      | .ok (d, r2) =>
        match expectTok .braceClose r2 with
        | .error e => .error e
        | .ok r3 => .ok (.dict d, r3)
    | .sqrbrOpen :: r =>
      match getTok .sqrbrClose r with
      | some r2 => .ok (.list [], r2)
      | none =>
        match parse_json_tok fuel r with
        | .error e => .error e
        | .ok (v, r2) =>
          let rec arrLoop (fuel2 : Nat) (acc : List PyVal) (toks2 : List Token) :
              Except PyError (List PyVal × List Token) :=
            match fuel2 with
            | 0 => .error .fuelExhausted
            | fuel3 + 1 =>
              match getTok .comma toks2 with
              | some r3 =>
                match parse_json_tok fuel3 r3 with
                | .error e => .error e
                | .ok (w, r4) => arrLoop fuel3 (acc ++ [w]) r4
              | none => .ok (acc, toks2)
          match arrLoop (fuel + 1) [v] r2 with
          | .error e => .error e
          | .ok (xs, r3) =>
            match expectTok .sqrbrClose r3 with
            | .error e => .error e
            | .ok r4 => .ok (.list xs, r4)
    | .string s :: r =>
      match unquote_string_json s with
      | .error e => .error e
      | .ok body => .ok (.str body, r)
    | .number v :: r =>
      if v.data.contains '.' then .ok (.float v, r)
      else .ok (.int ((v.data.foldl (fun acc d => acc * 10 + (d.toNat - '0'.toNat)) 0 : Nat) : Int), r)
    | .boolean v :: r => .ok (.bool (v ≠ ""), r)
    | _ => .error (.invalidSyntax "Expected json value")

/-- `Parser.parse_template_args` (parser.py lines 468-476): collect the
comma-separated quoted arguments of a template invocation. -/
def parse_template_args : Nat → List Token → Except PyError (List String × List Token)
  | 0, _ => .error .fuelExhausted
  | fuel + 1, toks =>
    match getTok .comma toks with
    | some r =>
      match get_string_tok r with
      | .error e => .error e
      | .ok (s, r2) =>
        match parse_template_args fuel r2 with
        | .error e => .error e
        | .ok (args, r3) => .ok (s :: args, r3)
    | none => .ok ([], toks)

/-- One step of `Parser.clean_ast`: merge a string element into a trailing
string, otherwise append. -/
def clean_step (acc : List PyVal) (elem : PyVal) : List PyVal :=
  match acc.getLast?, elem with
  | some (.str s), .str t => acc.dropLast ++ [.str (s ++ t)]
  | _, _ => acc ++ [elem]

/-- `Parser.clean_ast` (parser.py lines 616-625): coalesce adjacent
string elements of the intermediate AST. -/
def clean_ast (ast : List PyVal) : List PyVal :=
  match ast with
  | [] => []
  | a :: rest => rest.foldl clean_step [a]

/-- The per-item body of `Parser.convert_ast_to_json` (parser.py lines
629-645).  A dict carrying `modifier_contents` is a modified span: the
code reads `item["modified_text"][1]["text"]` unconditionally, so a
missing index 1 raises IndexError and a non-text element there raises
KeyError; the `standalone_contents` fallback (line 639) reads a key that
`internal_parse` never stores.  Subscripting a non-list / non-dict and
merging a non-dict with `|` raise TypeError, as in Python. -/
def convertItem (item : PyVal) : Except PyError PyVal :=
  match item with
  | .str s => .ok (.dict [("text", .str s)])
  | .dict d =>
    if (lookupA d "modifier_contents").isSome then
      let newBlock : Except PyError PyVal :=
        if (lookupA d "modified_text").isSome then
          match lookupA d "modified_text" with
          | some (.list l) =>
            match l.get? 1 with
            | some (.dict inner) =>
              match lookupA inner "text" with
              | some t => .ok (.dict [("text", t)])
              | none => .error (.keyError "text")
            | some _ => .error .typeError
            | none => .error .indexError
          | some _ => .error .typeError
          | none => .error .indexError
        else
          match lookupA d "standalone_contents" with
          | some v => .ok v
          | none => .error (.keyError "standalone_contents")
      match newBlock with
      | .error e => .error e
      | .ok (.dict nd) =>
        match lookupA d "modifier_contents" with
        | some (.dict md) => .ok (.dict (dictMerge nd md))
        | _ => .error .typeError
      | .ok _ => .error .typeError
    else .ok (.dict d)
  | .list l => .ok (.list l)
  | other => .ok other

/-- The item loop of `Parser.convert_ast_to_json`: strings, dicts and
lists are converted and appended; items of any other type fall through
the isinstance chain and are dropped. -/
def convertItems : List PyVal → Except PyError (List PyVal)
  | [] => .ok []
  | item :: rest =>
    match item with
    | .str _ | .dict _ | .list _ =>
      match convertItem item with
      | .error e => .error e
      | .ok v =>
        match convertItems rest with
        | .error e => .error e
        | .ok vs => .ok (v :: vs)
    | _ => convertItems rest

/-- `Parser.convert_ast_to_json` (parser.py lines 627-647): prepend
`self.parent or ""` and lower every AST item. -/
def convert_ast_to_json (parent : PyVal) (ast : List PyVal) :
    Except PyError (List PyVal) :=
  match convertItems ast with
  | .error e => .error e
  | .ok items => .ok (parentOr parent :: items)

/-- The characters whose escape resolves to the bare character
(parser.py lines 312-327). -/
def escapeAllowList : List Char :=
  ['b', 'f', 'n', 'r', 't', '\\', '[', ']', '(', ')', lbraceC, rbraceC, '<', '>']

/-- The elif chain of `Parser.parse_non_template_standalone` (parser.py
lines 363-421): parse one standalone field.  A keyword matched by the
kw_standalone regex but handled by no branch (only "selector") leaves the
field map empty, exactly as the Python elif chain does. -/
def parse_non_template_standalone_one : Nat -> ParserState -> Bool -> List Token ->
    Except PyError (Dict × ParserState × List Token)
  | 0, _, _, _ => .error .fuelExhausted
  | fuel + 1, st, _sc, toks =>
    match toks with
    | .selector v :: r => .ok ([("selector", .str v)], st, r)
    | .kwStandalone kw :: r =>
      if kw = "sep" ∨ kw = "separator" then
        match expectTok .equals r with
        | .error e => .error e
        | .ok r2 =>
          match get_string_tok r2 with
          | .error e => .error e
          | .ok (s, r3) => .ok ([("separator", .str s)], st, r3)
      else if kw = "key" then
        match expectTok .equals r with
        | .error e => .error e
        | .ok r2 =>
          match r2 with
          | .keybind v :: r3 => .ok ([("keybind", .str ("key." ++ v))], st, r3)
          | _ => .error (.invalidSyntax "Expected keybind")
      else if kw = "translate" then
        match expectTok .equals r with
        | .error e => .error e
        | .ok r2 =>
          match get_string_tok r2 with
          | .error e => .error e
          | .ok (s, r3) => .ok ([("translate", .str s)], st, r3)
      else if kw = "with" then
        match expectTok .equals r with
        | .error e => .error e
        | .ok r2 =>
          match parse_json_tok fuel r2 with
          | .error e => .error e
          | .ok (j, r3) => .ok ([("with", j)], st, r3)
      else if kw = "nbt" then
        match expectTok .equals r with
        | .error e => .error e
        | .ok r2 =>
          match get_string_tok r2 with
          | .error e => .error e
          | .ok (s, r3) => .ok ([("nbt", .str s)], st, r3)
      else if kw = "block" ∨ kw = "entity" ∨ kw = "storage" then
        match expectTok .equals r with
        | .error e => .error e
        | .ok r2 =>
          match expectString r2 with
          | .error e => .error e
          | .ok (raw, r3) =>
            -- parser.py lines 398-400 take value[1:-1] without undoing
            -- escaped quotes, unlike get_string.
            .ok ([(kw, .str (String.mk (dropFirstLast raw.data)))], st, r3)
      else if kw = "score" then
        match expectTok .equals r with
        | .error e => .error e
        | .ok r2 =>
          match get_string_tok r2 with
          | .error e => .error e
          | .ok (nm, r3) =>
            match expectTok .arrow r3 with
            | .error e => .error e
            | .ok r4 =>
              match get_string_tok r4 with
              | .error e => .error e
              | .ok (obj, r5) =>
                .ok ([("score", PyVal.dict
                  [("name", .str nm), ("objective", .str obj)])], st, r5)
      else if kw = "interpret" then
        match getTok .equals r with
        | some r2 =>
          match r2 with
          | .boolean v :: r3 => .ok ([("interpret", .bool (v == "true"))], st, r3)
          | _ => .error (.invalidSyntax "Expected boolean")
        | none => .ok ([("interpret", .bool true)], st, r)
      else
        .ok ([], st, r)
    | _ => .error (.invalidSyntax "Unknown standalone element input")

/-- `Parser.parse_non_template_standalone` (parser.py lines 363-426):
parse one field, then optionally consume a comma and merge the
recursively parsed remaining fields with `|=` (later fields win). -/
def parse_non_template_standalone : Nat -> ParserState -> Bool -> List Token ->
    Except PyError (Dict × ParserState × List Token)
  | 0, _, _, _ => .error .fuelExhausted
  | fuel + 1, st, sc, toks =>
    match parse_non_template_standalone_one fuel st sc toks with
    | .error e => .error e
    | .ok (d1, st1, r1) =>
      match getTok .comma r1 with
      | some r2 =>
        match parse_non_template_standalone fuel st1 sc r2 with
        | .error e => .error e
        | .ok (d2, st2, r3) => .ok (dictMerge d1 d2, st2, r3)
      | none => .ok (d1, st1, r1)

/-- The head of `Parser.parse_standalone` (parser.py lines 431-452): a
template invocation is looked up (unknown names raise InvalidSyntax,
line 437) and expanded via serialize / replace / re-parse; an empty
stream leaves the contents dict empty; anything else is delegated to
`parse_non_template_standalone`. -/
def parse_standalone_first : Nat -> ParserState -> Bool -> List Token ->
    Except PyError (PyVal × ParserState × List Token)
  | 0, _, _, _ => .error .fuelExhausted
  | fuel + 1, st, sc, toks =>
    match toks with
    | .template q :: r =>
      match lookupA st.templates q with
      | none => .error (.invalidSyntax ("Unknown template " ++ q))
      | some stored =>
        match parse_template_args fuel r with
        | .error e => .error e
        | .ok (args, r1) =>
          match expand_template_value stored args with
          | none => .error .jsonDecodeError
          | some v => .ok (v, st, r1)
    | [] => .ok (.dict [], st, toks)
    | _ =>
      match parse_non_template_standalone fuel st sc toks with
      | .error e => .error e
      | .ok (d, st1, r1) => .ok (.dict d, st1, r1)

mutual
/-- `Parser.internal_parse` (parser.py lines 304-357): run the main
collect loop, coalesce adjacent strings, and lower the AST reading
`self.parent` at conversion time. -/
def internal_parse : Nat -> ParserState -> Bool -> List Token ->
    Except PyError (List PyVal × ParserState × List Token)
  | 0, _, _, _ => .error .fuelExhausted
  | fuel + 1, st, sc, toks =>
    match internal_parse_loop fuel st sc toks with
    | .error e => .error e
    | .ok (ast, st1, rest) =>
      match convert_ast_to_json st1.parent (clean_ast ast) with
      | .error e => .error e
      | .ok out => .ok (out, st1, rest)

/-- The `stream.collect` loop of `Parser.internal_parse` (parser.py lines
308-353): consume square-bracket spans, standalone braces, escapes and
text runs until the next token is none of those. -/
def internal_parse_loop : Nat -> ParserState -> Bool -> List Token ->
    Except PyError (List PyVal × ParserState × List Token)
  | 0, _, _, _ => .error .fuelExhausted
  | fuel + 1, st, sc, toks =>
    match toks with
    | .escape v :: rest =>
      match v.data.get? 1 with
      | none => .error .indexError
      | some c =>
        let piece : PyVal :=
          if escapeAllowList.contains c then .str (String.mk [c]) else .str v
        match internal_parse_loop fuel st sc rest with
        | .error e => .error e
        | .ok (ast, st1, r1) => .ok (piece :: ast, st1, r1)
    | .sqrbrOpen :: rest =>
      match internal_parse fuel st sc rest with
      | .error e => .error e
      | .ok (modified_text, st1, r1) =>
        match expectTok .sqrbrClose r1 with
        | .error e => .error e
        | .ok r2 =>
          match expectTok .parenOpen r2 with
          | .error e => .error e
          | .ok r3 =>
            match parse_modifiers fuel st1 sc r3 with
            | .error e => .error e
            | .ok (mc, st2, r4) =>
              match expectTok .parenClose r4 with
              | .error e => .error e
              | .ok r5 =>
                match internal_parse_loop fuel st2 sc r5 with
                | .error e => .error e
                | .ok (ast, st3, r6) =>
                  .ok (.dict [("modified_text", .list modified_text),
                        ("modifier_contents", .dict mc)] :: ast, st3, r6)
    | .braceOpen :: rest =>
      match parse_standalone fuel st sc rest with
      | .error e => .error e
      | .ok (q, st1, r1) =>
        match internal_parse_loop fuel st1 sc r1 with
        | .error e => .error e
        | .ok (ast, st2, r2) => .ok (q :: ast, st2, r2)
    | .text v :: rest =>
      match internal_parse_loop fuel st sc rest with
      | .error e => .error e
      | .ok (ast, st1, r1) => .ok (.str v :: ast, st1, r1)
    | _ => .ok ([], st, toks)

/-- The expect / elif chain of `Parser.parse_modifiers` (parser.py lines
485-609): parse one modifier selected by the kind of the next token. -/
def parse_modifiers_step : Nat -> ParserState -> Bool -> List Token ->
    Except PyError (Dict × ParserState × List Token)
  | 0, _, _, _ => .error .fuelExhausted
  | fuel + 1, st, sc, toks =>
    match toks with
    | .kwJson kw :: r =>
      match error_if_scope sc with
      | .error e => .error e
      | .ok _ =>
        match expectTok .equals r with
        | .error e => .error e
        | .ok r2 =>
          match parse_json_tok fuel r2 with
          | .error e => .error e
          | .ok (j, r3) =>
            if kw = "hover_item" then
              .ok ([("hoverEvent",
                PyVal.dict [("action", .str "show_item"), ("contents", j)])], st, r3)
            else
              .ok ([(kw, j)], st, r3)
    | .kwScope _kw :: r =>
      -- hover_text: the parent style is saved, cleared for the nested
      -- scoped parse, and restored afterwards (parser.py lines 523-537).
      match error_if_scope sc with
      | .error e => .error e
      | .ok _ =>
        match expectTok .equals r with
        | .error e => .error e
        | .ok r2 =>
          match expectTok .scopeOpen r2 with
          | .error e => .error e
          | .ok r3 =>
            match internal_parse fuel { st with parent := PyVal.str "" } true r3 with
            | .error e => .error e
            | .ok (contents, st1, r4) =>
              let d : Dict := [("hoverEvent", PyVal.dict
                [("action", .str "show_text"), ("contents", .list contents)])]
              let st2 := { st1 with parent := st.parent }
              match expectTok .scopeClose r4 with
              | .error e => .error e
              | .ok r5 => .ok (d, st2, r5)
    | .kwColor :: r =>
      match expectTok .equals r with
      | .error e => .error e
      | .ok r2 =>
        match r2 with
        | .color v :: r3 => .ok ([("color", .str v)], st, r3)
        | .hexCode v :: r3 => .ok ([("color", .str v)], st, r3)
        | _ => .error (.invalidSyntax "Expected color or hex code")
    | .hexCode v :: r => .ok ([("color", .str v)], st, r)
    | .color v :: r => .ok ([("color", .str v)], st, r)
    | .url v :: r =>
      match error_if_scope sc with
      | .error e => .error e
      | .ok _ =>
        .ok ([("clickEvent",
          PyVal.dict [("action", .str "open_url"), ("value", .str v)])], st, r)
    | .kwLink :: r =>
      match error_if_scope sc with
      | .error e => .error e
      | .ok _ =>
        match expectTok .equals r with
        | .error e => .error e
        | .ok r2 =>
          match get_string_tok r2 with
          | .error e => .error e
          | .ok (s, r3) =>
            let link := if pyStartsWith s "http" then s else "https://" ++ s
            .ok ([("clickEvent",
              PyVal.dict [("action", .str "open_url"), ("value", .str link)])], st, r3)
    | .kwString kw :: r =>
      match (if kw ≠ "font" then error_if_scope sc else .ok ()) with
      | .error e => .error e
      | .ok _ =>
        match expectTok .equals r with
        | .error e => .error e
        | .ok r2 =>
          match get_string_tok r2 with
          | .error e => .error e
          | .ok (s, r3) =>
            if kw = "copy" then
              .ok ([("clickEvent", PyVal.dict
                [("action", .str "copy_to_clipboard"), ("value", .str s)])], st, r3)
            else if kw = "suggest" then
              .ok ([("clickEvent", PyVal.dict
                [("action", .str "suggest_command"), ("value", .str s)])], st, r3)
            else if kw = "run" then
              .ok ([("clickEvent", PyVal.dict
                [("action", .str "run_command"), ("value", .str s)])], st, r3)
            else if kw = "insertion" ∨ kw = "font" then
              .ok ([(kw, .str s)], st, r3)
            else
              .ok ([], st, r3)
    | .kwInteger _kw :: r =>
      match error_if_scope sc with
      | .error e => .error e
      | .ok _ =>
        match expectTok .equals r with
        | .error e => .error e
        | .ok r2 =>
          match r2 with
          | .integer v :: r3 =>
            .ok ([("clickEvent", PyVal.dict
              [("action", .str "change_page"), ("value", .str v)])], st, r3)
          | _ => .error (.invalidSyntax "Expected integer")
    | .kwBool kw :: r =>
      match getTok .equals r with
      | some r2 =>
        match r2 with
        | .boolean v :: r3 => .ok ([(kw, .bool (v == "true"))], st, r3)
        | _ => .error (.invalidSyntax "Expected boolean")
      | none => .ok ([(kw, .bool true)], st, r)
    | .pattern q :: r =>
      match lookupA st.patterns q with
      | none => .error (.invalidSyntax ("Unknown pattern " ++ q))
      | some entries => .ok (dictMerge [] entries, st, r)
    | _ => .error (.invalidSyntax "Expected modifier")

/-- `Parser.parse_modifiers` (parser.py lines 478-614): parse one
modifier, then optionally consume a comma and merge in the recursively
parsed remaining modifiers with the dict `|=` operator (the right side
wins on key collisions). -/
def parse_modifiers : Nat -> ParserState -> Bool -> List Token ->
    Except PyError (Dict × ParserState × List Token)
  | 0, _, _, _ => .error .fuelExhausted
  | fuel + 1, st, sc, toks =>
    match parse_modifiers_step fuel st sc toks with
    | .error e => .error e
    | .ok (d1, st1, r1) =>
      match getTok .comma r1 with
      | some r2 =>
        match parse_modifiers fuel st1 sc r2 with
        | .error e => .error e
        | .ok (d2, st2, r3) => .ok (dictMerge d1 d2, st2, r3)
      | none => .ok (d1, st1, r1)

/-- `Parser.parse_standalone` (parser.py lines 428-466): parse the head
of the standalone element, require the closing brace, and merge an
optional trailing parenthesised modifier list with `|`, which raises
TypeError on a template fragment (a list), converted to InvalidSyntax. -/
def parse_standalone : Nat -> ParserState -> Bool -> List Token ->
    Except PyError (PyVal × ParserState × List Token)
  | 0, _, _, _ => .error .fuelExhausted
  | fuel + 1, st, sc, toks =>
    match parse_standalone_first fuel st sc toks with
    | .error e => .error e
    | .ok (contents, st1, r1) =>
      match expectTok .braceClose r1 with
      | .error e => .error e
      | .ok r2 =>
        match getTok .parenOpen r2 with
        | some r3 =>
          match parse_modifiers fuel st1 sc r3 with
          | .error e => .error e
          | .ok (mc, st2, r4) =>
            match expectTok .parenClose r4 with
            | .error e => .error e
            | .ok r5 =>
              match contents with
              | .dict d => .ok (.dict (dictMerge d mc), st2, r5)
              | _ => .error (.invalidSyntax "Modifiers are not supported on templates")
        | none => .ok (contents, st1, r2)
end

/-- `Parser.set_parent` (parser.py lines 108-129): a parenthesised
modifier list stores its modifier set as the parent; the `null` literal
clears it; anything else is a syntax error.  Called outside any scoped
parse, so the scoped flag is false. -/
def set_parent (fuel : Nat) (st : ParserState) (toks : List Token) :
    Except PyError (PyVal × ParserState) :=
  match toks with
  | .parenOpen :: r =>
    match parse_modifiers fuel st false r with
    | .error e => .error e
    | .ok (contents, st1, r1) =>
      match expectTok .parenClose r1 with
      | .error e => .error e
      | .ok _ => .ok (.dict contents, { st1 with parent := .dict contents })
  | .nullT :: _ => .ok (.str "", { st with parent := .str "" })
  | _ => .error (.invalidSyntax "Expected either modifier or null for parent, got neither")

/-- Name normalization of `Parser.add_definition` (parser.py lines
188-190): the sigil is prepended unless already present. -/
def normalize_name (sigil name : String) : String :=
  if pyStartsWith name sigil then name else sigil ++ name

/-- `Parser.add_pattern` (parser.py lines 202-233): reject duplicates
with DefinitionAlreadyExists, parse the parenthesised modifier list, and
store it under the `@`-prefixed internal name. -/
def add_pattern (fuel : Nat) (st : ParserState) (name : String)
    (toks : List Token) : Except PyError (PyVal × ParserState) :=
  let iname := normalize_name "@" name
  if (lookupA st.patterns iname).isSome then
    .error (.definitionAlreadyExists ("Pattern " ++ name ++ " has already been defined"))
  else
    match expectTok .parenOpen toks with
    | .error e => .error e
    | .ok r =>
      match parse_modifiers fuel st false r with
      | .error e => .error e
      | .ok (contents, st1, r1) =>
        match expectTok .parenClose r1 with
        | .error e => .error e
        | .ok _ =>
          .ok (.dict contents, { st1 with patterns := setKeyA st1.patterns iname contents })

/-- `Parser.add_template` (parser.py lines 235-260): reject duplicates
with DefinitionAlreadyExists, parse the body with `internal_parse` (whose
output begins with the parent style current at definition time), and
store the resulting fragment under the `$`-prefixed internal name. -/
def add_template (fuel : Nat) (st : ParserState) (name : String)
    (toks : List Token) : Except PyError (PyVal × ParserState) :=
  let iname := normalize_name "$" name
  if (lookupA st.templates iname).isSome then
    .error (.definitionAlreadyExists ("Template " ++ name ++ " has already been defined"))
  else
    match internal_parse fuel st false toks with
    | .error e => .error e
    | .ok (out, st1, _rest) =>
      .ok (.list out, { st1 with templates := setKeyA st1.templates iname (.list out) })

/-- The parsing core of `Parser.parse` (parser.py lines 75-83) after the
input has been pre-processed and tokenized: run `internal_parse`, then
reset `self.parent` to the empty string, and return the output tree (the
value that is either returned directly or serialized with `json.dumps`,
depending on the resolved `json_dump` flag).  An InvalidSyntax escaping
`internal_parse` is re-raised with source-location decoration (lines
85-92); the decoration only reformats the message, so the model keeps the
original message, and other exception classes propagate uncaught. -/
def parse_tree (fuel : Nat) (st : ParserState) (toks : List Token) :
    Except PyError (PyVal × ParserState) :=
  match internal_parse fuel st false toks with
  | .error e => .error e
  | .ok (out, st1, _rest) => .ok (.list out, { st1 with parent := .str "" })

/-- The default definitions delimiter (parser.py line 29). -/
def definition_delimeter : String := "#ALLAYDEFS\n"

/-- `Parser.pre_process` (parser.py lines 131-143) restricted to inputs
that do not contain the definitions delimiter: `text.find` returns -1 and
the function returns `text.strip()`.  Inputs containing the delimiter
take the definitions-block path, which no claim exercises; it is
represented by `none` here and every theorem below hypothesises that the
delimiter is absent. -/
def pre_process (text : String) : Option String :=
  if hasSubstr text definition_delimeter then none else some (pyStrip text)

/-- The characters that are special to the primary syntax: they terminate
or escape a text run (the text token regex of parser.py line 157 is
`[^\[\]\{\}<>\\]+`). -/
def specialChars : List Char :=
  ['[', ']', lbraceC, rbraceC, '<', '>', '\\']

/-- Whether a string lexes as one maximal text token: it contains no
special character and does not begin with the equals character (the only
other primary-syntax pattern that can match at a position where text
also matches, being declared before it). -/
def isPlainText (s : String) : Bool :=
  s.data.all (fun c => !specialChars.contains c) &&
    (match s.data with
     | [] => true
     | c :: _ => c ≠ '=')

/-- Modelled from the spec: the external token stream primitive (spec
section 4.1) together with the text token regex of parser.py line 157.
A non-empty string in which every character is non-special and whose
first character is not the equals sign lexes to a single maximal text
token; an empty source yields no tokens. -/
def plainTokens (s : String) : List Token :=
  if s.data.isEmpty then [] else [Token.text s]

/-- `Parser.parse` on a delimiter-free plain-text source: `pre_process`
strips the text (parser.py line 143), the stream lexes it, and the parse
core runs.  (The file-path probe of lines 67-72 is filesystem I/O and is
outside the model; inputs are treated as source text, as they are for
every string that is not a readable path.) -/
def parse_plain (fuel : Nat) (st : ParserState) (text : String) :
    Except PyError (PyVal × ParserState) :=
  parse_tree fuel st (plainTokens (pyStrip text))



/-! ## General lemmas about the embedding -/

/-- `parse_non_template_standalone_one` returns its input state: no
standalone-field branch touches the instance state. -/
theorem parse_non_template_standalone_one_state (fuel : Nat) (st : ParserState)
    (sc : Bool) (toks : List Token) (v : Dict) (st1 : ParserState) (r : List Token)
    (h : parse_non_template_standalone_one fuel st sc toks = .ok (v, st1, r)) :
    st1 = st := by
  match fuel with
  | 0 => simp [parse_non_template_standalone_one] at h
  | fuel + 1 =>
    match toks with
    | [] => simp [parse_non_template_standalone_one] at h
    | t :: rest =>
      cases t <;> simp only [parse_non_template_standalone_one] at h <;>
        (repeat' split at h) <;> simp_all

/-- `parse_non_template_standalone` returns its input state. -/
theorem parse_non_template_standalone_state (fuel : Nat) (st : ParserState)
    (sc : Bool) (toks : List Token) (v : Dict) (st1 : ParserState) (r : List Token)
    (h : parse_non_template_standalone fuel st sc toks = .ok (v, st1, r)) :
    st1 = st := by
  induction fuel generalizing st toks v st1 r with
  | zero => simp [parse_non_template_standalone] at h
  | succ fuel ih =>
    simp only [parse_non_template_standalone] at h
    split at h
    · exact absurd h (by simp)
    · rename_i heqA
      split at h
      · split at h
        · exact absurd h (by simp)
        · rename_i heqB
          simp only [Except.ok.injEq, Prod.mk.injEq] at h
          obtain ⟨-, h2, -⟩ := h
          subst h2
          rw [ih _ _ _ _ _ heqB,
            parse_non_template_standalone_one_state _ _ _ _ _ _ _ heqA]
      · simp only [Except.ok.injEq, Prod.mk.injEq] at h
        obtain ⟨-, h2, -⟩ := h
        subst h2
        exact parse_non_template_standalone_one_state _ _ _ _ _ _ _ heqA

/-- `parse_standalone_first` returns its input state. -/
theorem parse_standalone_first_state (fuel : Nat) (st : ParserState)
    (sc : Bool) (toks : List Token) (v : PyVal) (st1 : ParserState) (r : List Token)
    (h : parse_standalone_first fuel st sc toks = .ok (v, st1, r)) :
    st1 = st := by
  match fuel with
  | 0 => simp [parse_standalone_first] at h
  | fuel + 1 =>
    simp only [parse_standalone_first] at h
    split at h
    · (repeat' split at h) <;> simp_all
    · simp_all
    · split at h
      · exact absurd h (by simp)
      · rename_i heqA
        simp only [Except.ok.injEq, Prod.mk.injEq] at h
        obtain ⟨-, h2, -⟩ := h
        subst h2
        exact parse_non_template_standalone_state _ _ _ _ _ _ _ heqA

set_option maxHeartbeats 2000000 in
/-- On success, every function of the parse family returns the instance
state it was given: the only mutation (the parent save / clear / restore
around hover_text) restores the saved value before returning. -/
theorem parse_state_mutual (fuel : Nat) :
    (∀ st sc toks v st1 r, internal_parse fuel st sc toks = .ok (v, st1, r) → st1 = st)
  ∧ (∀ st sc toks v st1 r, internal_parse_loop fuel st sc toks = .ok (v, st1, r) → st1 = st)
  ∧ (∀ st sc toks v st1 r, parse_modifiers_step fuel st sc toks = .ok (v, st1, r) → st1 = st)
  ∧ (∀ st sc toks v st1 r, parse_modifiers fuel st sc toks = .ok (v, st1, r) → st1 = st)
  ∧ (∀ st sc toks v st1 r, parse_standalone fuel st sc toks = .ok (v, st1, r) → st1 = st) := by
  induction fuel with
  | zero =>
    refine ⟨?_, ?_, ?_, ?_, ?_⟩ <;> intro st sc toks v st1 r h <;>
      simp [internal_parse, internal_parse_loop, parse_modifiers_step,
        parse_modifiers, parse_standalone] at h
  | succ fuel ih =>
    obtain ⟨ih_ip, ih_loop, ih_step, ih_mod, ih_sa⟩ := ih
    refine ⟨?_, ?_, ?_, ?_, ?_⟩
    · -- internal_parse
      intro st sc toks v st1 r h
      simp only [internal_parse] at h
      split at h
      · exact Except.noConfusion h
      · rename_i heqL
        split at h
        · exact Except.noConfusion h
        · simp only [Except.ok.injEq, Prod.mk.injEq] at h
          obtain ⟨-, h2, -⟩ := h
          subst h2
          exact ih_loop _ _ _ _ _ _ heqL
    · -- internal_parse_loop
      intro st sc toks v st1 r h
      simp only [internal_parse_loop] at h
      split at h
      · -- escape
        split at h
        · exact Except.noConfusion h
        · split at h
          · exact Except.noConfusion h
          · rename_i heqA
            simp only [Except.ok.injEq, Prod.mk.injEq] at h
            obtain ⟨-, h2, -⟩ := h
            subst h2
            exact ih_loop _ _ _ _ _ _ heqA
      · -- sqrbr
        split at h
        · exact Except.noConfusion h
        · rename_i heqA
          split at h
          · exact Except.noConfusion h
          · split at h
            · exact Except.noConfusion h
            · split at h
              · exact Except.noConfusion h
              · rename_i heqB
                split at h
                · exact Except.noConfusion h
                · split at h
                  · exact Except.noConfusion h
                  · rename_i heqC
                    simp only [Except.ok.injEq, Prod.mk.injEq] at h
                    obtain ⟨-, h2, -⟩ := h
                    subst h2
                    rw [ih_loop _ _ _ _ _ _ heqC, ih_mod _ _ _ _ _ _ heqB,
                      ih_ip _ _ _ _ _ _ heqA]
      · -- brace
        split at h
        · exact Except.noConfusion h
        · rename_i heqA
          split at h
          · exact Except.noConfusion h
          · rename_i heqB
            simp only [Except.ok.injEq, Prod.mk.injEq] at h
            obtain ⟨-, h2, -⟩ := h
            subst h2
            rw [ih_loop _ _ _ _ _ _ heqB, ih_sa _ _ _ _ _ _ heqA]
      · -- text
        split at h
        · exact Except.noConfusion h
        · rename_i heqA
          simp only [Except.ok.injEq, Prod.mk.injEq] at h
          obtain ⟨-, h2, -⟩ := h
          subst h2
          exact ih_loop _ _ _ _ _ _ heqA
      · -- default
        simp only [Except.ok.injEq, Prod.mk.injEq] at h
        obtain ⟨-, h2, -⟩ := h
        subst h2
        rfl
    · -- parse_modifiers_step
      intro st sc toks v st1 r h
      match toks with
      | [] => simp [parse_modifiers_step] at h
      | t :: rest =>
        cases t
        case kwScope kwv =>
          simp only [parse_modifiers_step] at h
          split at h
          · exact Except.noConfusion h
          · split at h
            · exact Except.noConfusion h
            · split at h
              · exact Except.noConfusion h
              · split at h
                · exact Except.noConfusion h
                · rename_i heqA
                  split at h
                  · exact Except.noConfusion h
                  · simp only [Except.ok.injEq, Prod.mk.injEq] at h
                    obtain ⟨-, h2, -⟩ := h
                    subst h2
                    rw [ih_ip _ _ _ _ _ _ heqA]
        all_goals (simp only [parse_modifiers_step] at h; (repeat' split at h) <;>
          first
          | exact Except.noConfusion h
          | (simp only [Except.ok.injEq, Prod.mk.injEq] at h
             obtain ⟨-, h2, -⟩ := h
             subst h2
             rfl))
    · -- parse_modifiers
      intro st sc toks v st1 r h
      simp only [parse_modifiers] at h
      split at h
      · exact Except.noConfusion h
      · rename_i heqA
        split at h
        · split at h
          · exact Except.noConfusion h
          · rename_i heqB
            simp only [Except.ok.injEq, Prod.mk.injEq] at h
            obtain ⟨-, h2, -⟩ := h
            subst h2
            rw [ih_mod _ _ _ _ _ _ heqB, ih_step _ _ _ _ _ _ heqA]
        · simp only [Except.ok.injEq, Prod.mk.injEq] at h
          obtain ⟨-, h2, -⟩ := h
          subst h2
          exact ih_step _ _ _ _ _ _ heqA
    · -- parse_standalone
      intro st sc toks v st1 r h
      simp only [parse_standalone] at h
      split at h
      · exact Except.noConfusion h
      · rename_i heqA
        split at h
        · exact Except.noConfusion h
        · split at h
          · split at h
            · exact Except.noConfusion h
            · rename_i heqB
              split at h
              · exact Except.noConfusion h
              · split at h
                · simp only [Except.ok.injEq, Prod.mk.injEq] at h
                  obtain ⟨-, h2, -⟩ := h
                  subst h2
                  rw [ih_mod _ _ _ _ _ _ heqB,
                    parse_standalone_first_state _ _ _ _ _ _ _ heqA]
                · exact Except.noConfusion h
          · simp only [Except.ok.injEq, Prod.mk.injEq] at h
            obtain ⟨-, h2, -⟩ := h
            subst h2
            exact parse_standalone_first_state _ _ _ _ _ _ _ heqA

/-- State invariance of `internal_parse`, extracted from the mutual lemma. -/
theorem internal_parse_state (fuel : Nat) (st : ParserState) (sc : Bool)
    (toks : List Token) (v : List PyVal) (st1 : ParserState) (r : List Token)
    (h : internal_parse fuel st sc toks = .ok (v, st1, r)) : st1 = st :=
  (parse_state_mutual fuel).1 st sc toks v st1 r h

/-- State invariance of `internal_parse_loop`, extracted from the mutual
lemma. -/
theorem internal_parse_loop_state (fuel : Nat) (st : ParserState) (sc : Bool)
    (toks : List Token) (v : List PyVal) (st1 : ParserState) (r : List Token)
    (h : internal_parse_loop fuel st sc toks = .ok (v, st1, r)) : st1 = st :=
  (parse_state_mutual fuel).2.1 st sc toks v st1 r h

/-- State invariance of `parse_modifiers`, extracted from the mutual
lemma. -/
theorem parse_modifiers_state (fuel : Nat) (st : ParserState) (sc : Bool)
    (toks : List Token) (v : Dict) (st1 : ParserState) (r : List Token)
    (h : parse_modifiers fuel st sc toks = .ok (v, st1, r)) : st1 = st :=
  (parse_state_mutual fuel).2.2.2.1 st sc toks v st1 r h

/-- A successful lowering always begins with `self.parent or ""`. -/
theorem convert_ast_to_json_head (p : PyVal) (ast : List PyVal)
    (out : List PyVal) (h : convert_ast_to_json p ast = .ok out) :
    ∃ items, out = parentOr p :: items := by
  simp only [convert_ast_to_json] at h
  split at h
  · exact Except.noConfusion h
  · simp only [Except.ok.injEq] at h
    exact ⟨_, h.symm⟩

/-- A successful `internal_parse` emits the parent style in effect when it
was entered (the state at conversion time equals the entry state) as the
first element of its output tree. -/
theorem internal_parse_head (fuel : Nat) (st : ParserState) (sc : Bool)
    (toks : List Token) (out : List PyVal) (st1 : ParserState) (r : List Token)
    (h : internal_parse fuel st sc toks = .ok (out, st1, r)) :
    ∃ items, out = parentOr st.parent :: items := by
  match fuel with
  | 0 => simp [internal_parse] at h
  | fuel + 1 =>
    simp only [internal_parse] at h
    split at h
    · exact Except.noConfusion h
    · rename_i heqL
      split at h
      · exact Except.noConfusion h
      · rename_i heqC
        simp only [Except.ok.injEq, Prod.mk.injEq] at h
        obtain ⟨h1, -, -⟩ := h
        subst h1
        have hst := internal_parse_loop_state _ _ _ _ _ _ _ heqL
        subst hst
        exact convert_ast_to_json_head _ _ _ heqC

/-- A pattern that does not occur in a string is not replaced
(fuel-indexed form). -/
theorem pyReplaceF_not_contains (pat rep : List Char) (fuel : Nat) :
    ∀ s, containsSub s pat = false → pyReplaceF pat rep fuel s = s := by
  induction fuel with
  | zero => intro s _; rfl
  | succ fuel ih =>
    intro s h
    match s with
    | [] => rfl
    | c :: rest =>
      simp only [containsSub, Bool.or_eq_false_iff] at h
      obtain ⟨h1, h2⟩ := h
      simp only [pyReplaceF]
      rw [if_neg, ih rest h2]
      intro hc
      rw [hc.2] at h1
      exact Bool.noConfusion h1

/-- A pattern that does not occur in a string is not replaced. -/
theorem pyReplace_not_contains (pat rep s : List Char)
    (h : containsSub s pat = false) : pyReplace pat rep s = s :=
  pyReplaceF_not_contains pat rep s.length s h

/-- Arguments none of whose placeholders occur in the serialized template
leave it unchanged (the "extra arguments are silently ignored"
behaviour), fuel-indexed over the starting index. -/
theorem substituteArgsFrom_not_contains (args : List String) :
    ∀ (i : Nat) (s : List Char),
      (∀ j, j < args.length → containsSub s (placeholder (i + j)) = false) →
      substituteArgsFrom i args s = s := by
  induction args with
  | nil => intro i s _; rfl
  | cons a rest ih =>
    intro i s h
    have h0 : containsSub s (placeholder i) = false := by
      have := h 0 (by simp)
      simpa using this
    simp only [substituteArgsFrom]
    rw [pyReplace_not_contains _ _ _ h0]
    refine ih (i + 1) s (fun j hj => ?_)
    have := h (j + 1) (by simpa using Nat.succ_lt_succ hj)
    rw [show i + 1 + j = i + (j + 1) by omega]
    exact this

/-- String-level form: when no supplied argument index occurs as a
placeholder in the serialized template, substitution is the identity. -/
theorem substituteArgs_not_contains (s : String) (args : List String)
    (h : ∀ j, j < args.length → containsSub s.data (placeholder j) = false) :
    substituteArgs s args = s := by
  unfold substituteArgs
  rw [substituteArgsFrom_not_contains args 0 s.data (fun j hj => by simpa using h j hj)]

/-- Looking up the key just assigned returns the assigned value. -/
theorem lookupA_setKeyA_self {α : Type} (d : List (String × α)) (k : String) (v : α) :
    lookupA (setKeyA d k v) k = some v := by
  induction d with
  | nil => simp [setKeyA, lookupA]
  | cons kv rest ih =>
    obtain ⟨k2, w⟩ := kv
    by_cases hk : k2 = k
    · subst hk; simp [setKeyA, lookupA]
    · simp [setKeyA, lookupA, hk, ih]

/-- The dict merge used throughout the parser is right-biased: merging in
a binding for `k` makes its value the one observed at `k`. -/
theorem dictMerge_right_bias (d : Dict) (k : String) (v : PyVal) :
    lookupA (dictMerge d [(k, v)]) k = some v := by
  simp only [dictMerge, List.foldl]
  exact lookupA_setKeyA_self d k v

/-! ## Claim theorems -/

/-- C10 counterexample: the claim says a default of `json_dump=False` can
never be established, but the constructor (parser.py lines 32-33) assigns
the attribute directly before calling `set_defaults`, so
`Parser(json_dump=False)` stores False and a subsequent `parse()` without
an argument resolves `json_dump` to False (the structured, non-serialized
result), refuting "always returns the serialized-string form". -/
theorem c10_counterexample :
    (mkParser none (some false)).json_dump = some false
    ∧ resolve_json_dump (mkParser none (some false)) none = false
    ∧ (some false : Option Bool) ≠ none := by
  refine ⟨rfl, rfl, by simp⟩

/-- C10 amended: `set_defaults` does ignore falsy arguments (indent 0,
json_dump False, None), but the constructor assigns the attributes
directly before delegating to `set_defaults`, so `json_dump=False` is
established at construction time and `parse()` without a `json_dump`
argument then returns the structured tree rather than the serialized
string. -/
theorem c10_set_defaults_falsy (st : ParserState) (i : Option Int) :
    set_defaults st (some 0) (some false) = st
    ∧ set_defaults st none (some false) = st
    ∧ set_defaults st (some 0) none = st
    ∧ set_defaults st none none = st
    ∧ (mkParser i (some false)).json_dump = some false
    ∧ resolve_json_dump (mkParser i (some false)) none = false := by
  have h5 : (mkParser i (some false)).json_dump = some false := by
    unfold mkParser set_defaults
    split <;> rfl
  refine ⟨rfl, rfl, rfl, rfl, h5, ?_⟩
  unfold resolve_json_dump
  rw [h5]
  rfl

/-- C5 counterexample: the claim says a `link` value carrying a URI scheme
is stored untouched, but parser.py line 559 tests `startswith("http")`,
so the schemed value `ftp://x.y` still gets `https://` prepended. -/
theorem c5_counterexample :
    parse_modifiers 50 initParser false
      [Token.kwLink, Token.equals, Token.string "\"ftp://x.y\""]
    = .ok ([("clickEvent", PyVal.dict [("action", PyVal.str "open_url"),
        ("value", PyVal.str "https://ftp://x.y")])], initParser, [])
    ∧ PyVal.str "https://ftp://x.y" ≠ PyVal.str "ftp://x.y" := by
  refine ⟨by rfl, by simp⟩

/-- C5 amended: a `link="..."` value is stored untouched exactly when it
starts with the literal text "http" (not when it has a URI scheme);
every other value, schemed or not, gets `https://` prepended.  Bare URL
tokens (whose regex only matches http/https) are stored untouched, and
both branches produce the identical clickEvent shape
`(action, open_url), (value, link)`. -/
theorem c5_link_http_prefix (fuel : Nat) (st : ParserState) (w u : String) :
    parse_modifiers (fuel + 2) st false [Token.kwLink, Token.equals, Token.string w]
      = .ok ([("clickEvent", PyVal.dict [("action", PyVal.str "open_url"),
          ("value", PyVal.str (if pyStartsWith (get_string_val w) "http"
            then get_string_val w else "https://" ++ get_string_val w))])], st, [])
    ∧ parse_modifiers (fuel + 2) st false [Token.url u]
      = .ok ([("clickEvent", PyVal.dict [("action", PyVal.str "open_url"),
          ("value", PyVal.str u)])], st, []) := by
  constructor <;>
    simp [parse_modifiers, parse_modifiers_step, error_if_scope, expectTok,
      get_string_tok, expectString, getTok]

/-- C2 counterexample: the claim says a key already set before a pattern
reference keeps its value and that of two conflicting patterns the first
wins.  The code merges with `|=` (parser.py lines 609 and 612), which is
right-biased: `(blue, @p)` with pattern `@p = (red)` yields red, and
`(@p1, @p2)` with conflicting colors yields the second pattern's color
(the repository's own test for `@extern_patt1, @extern_patt2` confirms
the later pattern winning). -/
theorem c2_counterexample :
    parse_modifiers 50
      { initParser with patterns := [("@p", [("color", PyVal.str "red")])] } false
      [Token.color "blue", Token.comma, Token.pattern "@p"]
    = .ok ([("color", PyVal.str "red")],
        { initParser with patterns := [("@p", [("color", PyVal.str "red")])] }, [])
    ∧ parse_modifiers 50
      { initParser with patterns :=
        [("@p1", [("color", PyVal.str "red")]), ("@p2", [("color", PyVal.str "green")])] } false
      [Token.pattern "@p1", Token.comma, Token.pattern "@p2"]
    = .ok ([("color", PyVal.str "green")],
        { initParser with patterns :=
          [("@p1", [("color", PyVal.str "red")]), ("@p2", [("color", PyVal.str "green")])] }, [])
    ∧ PyVal.str "red" ≠ PyVal.str "blue"
    ∧ PyVal.str "green" ≠ PyVal.str "red" := by
  refine ⟨by rfl, by rfl, by simp, by simp⟩

/-- C2 amended: pattern expansion follows the same right-biased
mapping-merge semantics as everything else: a resolved pattern's entries
overwrite keys set textually before it, and of two conflicting pattern
references the last one wins (later write wins, in textual order). -/
theorem c2_pattern_merge_right_biased (d : Dict) (k : String) (v : PyVal) :
    lookupA (dictMerge d [(k, v)]) k = some v
    ∧ parse_modifiers 50
      { initParser with patterns := [("@p", [("color", PyVal.str "red")])] } false
      [Token.color "blue", Token.comma, Token.pattern "@p"]
    = .ok ([("color", PyVal.str "red")],
        { initParser with patterns := [("@p", [("color", PyVal.str "red")])] }, [])
    ∧ parse_modifiers 50
      { initParser with patterns :=
        [("@p1", [("color", PyVal.str "red")]), ("@p2", [("color", PyVal.str "green")])] } false
      [Token.pattern "@p1", Token.comma, Token.pattern "@p2"]
    = .ok ([("color", PyVal.str "green")],
        { initParser with patterns :=
          [("@p1", [("color", PyVal.str "red")]), ("@p2", [("color", PyVal.str "green")])] }, []) := by
  refine ⟨dictMerge_right_bias d k v, by rfl, by rfl⟩

/-- C6 counterexample: the claim says an unknown pattern/template name
fails with an error kind distinct from SyntaxError.  The code raises the
stream library's InvalidSyntax for both unknown names (parser.py lines
437 and 607) and malformed tokens, so a consumer cannot distinguish the
failures by exception class. -/
theorem c6_counterexample :
    parse_modifiers 50 initParser false [Token.pattern "@World"]
      = .error (.invalidSyntax "Unknown pattern @World")
    ∧ parse_standalone 50 initParser false [Token.template "$missingno", Token.braceClose]
      = .error (.invalidSyntax "Unknown template $missingno")
    ∧ parse_modifiers 50 initParser false [Token.equals]
      = .error (.invalidSyntax "Expected modifier") := by
  refine ⟨by rfl, by rfl, by rfl⟩

/-- C6 amended: unknown pattern and template references fail with
InvalidSyntax, the same exception class raised for malformed tokens,
distinguishable only by message text; only duplicate definitions raise
the distinct DefinitionAlreadyExists class. -/
theorem c6_error_classes :
    parse_modifiers 50 initParser false [Token.pattern "@World"]
      = .error (.invalidSyntax "Unknown pattern @World")
    ∧ parse_standalone 50 initParser false [Token.template "$missingno", Token.braceClose]
      = .error (.invalidSyntax "Unknown template $missingno")
    ∧ parse_modifiers 50 initParser false [Token.equals]
      = .error (.invalidSyntax "Expected modifier")
    ∧ add_pattern 50 { initParser with patterns := [("@x", [("bold", PyVal.bool true)])] }
        "x" [Token.parenOpen, Token.color "blue", Token.parenClose]
      = .error (.definitionAlreadyExists "Pattern x has already been defined")
    ∧ (∀ m1 m2, PyError.invalidSyntax m1 ≠ PyError.definitionAlreadyExists m2) := by
  refine ⟨by rfl, by rfl, by rfl, by rfl, fun m1 m2 h => PyError.noConfusion h⟩

/-- C8 confirmed: the lowering of a modified span reads
`item["modified_text"][1]["text"]` unconditionally (parser.py line 636),
so the syntactically well-formed inputs `[](bold)` (empty body) and
`[{@s}](bold)` (body starting with a standalone element) crash the parse
with uncaught IndexError and KeyError respectively, neither of which is
the InvalidSyntax class that documented parse errors use. -/
theorem c8_lowering_partial :
    internal_parse 60 initParser false
      [Token.sqrbrOpen, Token.sqrbrClose, Token.parenOpen, Token.kwBool "bold",
       Token.parenClose]
      = .error .indexError
    ∧ parse_tree 60 initParser
      [Token.sqrbrOpen, Token.sqrbrClose, Token.parenOpen, Token.kwBool "bold",
       Token.parenClose]
      = .error .indexError
    ∧ internal_parse 60 initParser false
      [Token.sqrbrOpen, Token.braceOpen, Token.selector "@s", Token.braceClose,
       Token.sqrbrClose, Token.parenOpen, Token.kwBool "bold", Token.parenClose]
      = .error (.keyError "text")
    ∧ parse_tree 60 initParser
      [Token.sqrbrOpen, Token.braceOpen, Token.selector "@s", Token.braceClose,
       Token.sqrbrClose, Token.parenOpen, Token.kwBool "bold", Token.parenClose]
      = .error (.keyError "text")
    ∧ (∀ m, PyError.indexError ≠ PyError.invalidSyntax m)
    ∧ (∀ m, PyError.keyError "text" ≠ PyError.invalidSyntax m) := by
  refine ⟨by rfl, by rfl, by rfl, by rfl,
    fun m h => PyError.noConfusion h, fun m h => PyError.noConfusion h⟩

/-- C4 counterexample: `pre_process` strips the input (parser.py line
143), so the plain-text input " a" (no special characters, no delimiter)
parses to a text field "a", not the input string itself; the claim as
stated fails on inputs with leading or trailing whitespace. -/
theorem c4_counterexample :
    parse_plain 50 initParser " a"
      = .ok (PyVal.list [PyVal.str "", PyVal.dict [("text", PyVal.str "a")]], initParser)
    ∧ isPlainText " a" = true
    ∧ hasSubstr " a" definition_delimeter = false
    ∧ PyVal.dict [("text", PyVal.str "a")] ≠ PyVal.dict [("text", PyVal.str " a")] := by
  refine ⟨by rfl, by rfl, by rfl, by simp⟩

/-- C4 amended: for every non-empty plain-text input that is unchanged by
whitespace stripping (and free of the definitions delimiter), parsing on
an instance with no parent style set yields exactly
`["", (text, input)]`. -/
theorem c4_plain_text_parse (fuel : Nat) (st : ParserState) (s : String)
    (hp : st.parent = PyVal.str "")
    (hne : s ≠ "")
    (hstrip : pyStrip s = s)
    (hplain : isPlainText s = true)
    (hdelim : hasSubstr s definition_delimeter = false) :
    parse_plain (fuel + 3) st s
      = .ok (PyVal.list [PyVal.str "", PyVal.dict [("text", PyVal.str s)]],
          { st with parent := PyVal.str "" }) := by
  have hdata : s.data.isEmpty = false := by
    cases s with
    | mk data =>
      cases data with
      | nil => exact absurd rfl hne
      | cons c rest => rfl
  unfold parse_plain
  rw [hstrip]
  unfold plainTokens
  rw [hdata]
  simp only [Bool.false_eq_true, if_false]
  unfold parse_tree
  simp only [internal_parse, internal_parse_loop]
  simp only [clean_ast, List.foldl, convert_ast_to_json, convertItems, convertItem,
    hp, parentOr, pyTruthy]
  simp

/-- Witness for `c4_plain_text_parse` at the repository's own test input
"Hello, World". -/
theorem c4_plain_text_parse_witness :
    parse_plain 33 initParser "Hello, World"
      = .ok (PyVal.list [PyVal.str "",
          PyVal.dict [("text", PyVal.str "Hello, World")]],
          { initParser with parent := PyVal.str "" }) :=
  c4_plain_text_parse 30 initParser "Hello, World" rfl (by decide) (by rfl)
    (by rfl) (by rfl)

/-- C1 counterexample: after `set_parent` establishes a bold parent, the
first `parse()` emits it, but `parse()` then resets `self.parent` to the
empty string (parser.py line 79), so the second `parse()` on the same
instance emits the empty-string sentinel instead of the stored parent,
refuting both "every subsequent successful parse() emits that
ModifierSet" and "parse() leaves the stored parent unchanged". -/
theorem c1_counterexample :
    set_parent 50 initParser [Token.parenOpen, Token.kwBool "bold", Token.parenClose]
      = .ok (PyVal.dict [("bold", PyVal.bool true)],
          ⟨[], [], PyVal.dict [("bold", PyVal.bool true)], none, none⟩)
    ∧ parse_tree 50 ⟨[], [], PyVal.dict [("bold", PyVal.bool true)], none, none⟩
        [Token.text "a"]
      = .ok (PyVal.list [PyVal.dict [("bold", PyVal.bool true)],
          PyVal.dict [("text", PyVal.str "a")]], initParser)
    ∧ parse_tree 50 initParser [Token.text "b"]
      = .ok (PyVal.list [PyVal.str "", PyVal.dict [("text", PyVal.str "b")]], initParser)
    ∧ PyVal.str "" ≠ PyVal.dict [("bold", PyVal.bool true)]
    ∧ initParser.parent ≠ (⟨[], [], PyVal.dict [("bold", PyVal.bool true)], none,
        none⟩ : ParserState).parent := by
  refine ⟨by rfl, by rfl, by rfl, by simp, fun h => PyVal.noConfusion h⟩

/-- C1 amended: the parent style set by `set_parent` is used by the next
successful `parse()` only: a successful `parse()` emits the currently
stored parent (or the empty sentinel) as the first element of its output
tree and then resets the stored parent to the empty string, so
persistence across calls requires re-establishing the parent before each
parse (via `set_parent` or an in-text PARENT definition). -/
theorem c1_parse_resets_parent (fuel : Nat) (st : ParserState)
    (toks : List Token) (out : PyVal) (st1 : ParserState)
    (h : parse_tree fuel st toks = .ok (out, st1)) :
    (∃ items, out = PyVal.list (parentOr st.parent :: items))
    ∧ st1 = { st with parent := PyVal.str "" } := by
  unfold parse_tree at h
  split at h
  · exact Except.noConfusion h
  · rename_i heq
    simp only [Except.ok.injEq, Prod.mk.injEq] at h
    obtain ⟨h1, h2⟩ := h
    subst h1
    constructor
    · obtain ⟨items, hi⟩ := internal_parse_head _ _ _ _ _ _ _ heq
      exact ⟨items, by rw [hi]⟩
    · rw [← h2, internal_parse_state _ _ _ _ _ _ _ heq]

/-- Witness for `c1_parse_resets_parent` at a concrete bold parent. -/
theorem c1_parse_resets_parent_witness :
    (∃ items, PyVal.list [PyVal.dict [("bold", PyVal.bool true)],
        PyVal.dict [("text", PyVal.str "a")]]
      = PyVal.list (parentOr
          (⟨[], [], PyVal.dict [("bold", PyVal.bool true)], none, none⟩ :
            ParserState).parent :: items))
    ∧ initParser = { (⟨[], [], PyVal.dict [("bold", PyVal.bool true)], none,
        none⟩ : ParserState) with parent := PyVal.str "" } :=
  c1_parse_resets_parent 50
    ⟨[], [], PyVal.dict [("bold", PyVal.bool true)], none, none⟩
    [Token.text "a"]
    (PyVal.list [PyVal.dict [("bold", PyVal.bool true)],
      PyVal.dict [("text", PyVal.str "a")]])
    initParser (by rfl)

/-- C7 confirmed: a `hover_text=<...>` modifier produces
`hoverEvent (action, show_text)` whose contents is the nested output tree
of the scoped parse; the nested parse runs with the parent cleared, so
the contents begin with the empty-string sentinel, and the stored parent
is restored afterwards: the resulting parser state is exactly the state
from before the modifier (parser.py lines 523-537). -/
theorem c7_hover_text_suspends_parent (fuel : Nat) (st : ParserState)
    (inner rest : List Token) (contents : List PyVal) (stA : ParserState)
    (hin : internal_parse fuel { st with parent := PyVal.str "" } true inner
      = .ok (contents, stA, Token.scopeClose :: rest))
    (hnc : getTok .comma rest = none) :
    parse_modifiers (fuel + 2) st false
        (Token.kwScope "hover_text" :: Token.equals :: Token.scopeOpen :: inner)
      = .ok ([("hoverEvent", PyVal.dict [("action", PyVal.str "show_text"),
          ("contents", PyVal.list contents)])], st, rest)
    ∧ contents.head? = some (PyVal.str "") := by
  have hstA : stA = { st with parent := PyVal.str "" } :=
    internal_parse_state _ _ _ _ _ _ _ hin
  subst hstA
  constructor
  · simp only [parse_modifiers, parse_modifiers_step, error_if_scope,
      Bool.false_eq_true, if_false, expectTok]
    simp only [reduceIte, hin, hnc]
  · obtain ⟨items, hi⟩ := internal_parse_head _ _ _ _ _ _ _ hin
    rw [hi]
    rfl

/-- Witness for `c7_hover_text_suspends_parent` with a bold parent set
and the hover content of the repository's own test. -/
theorem c7_hover_text_suspends_parent_witness :
    parse_modifiers 32 ⟨[], [], PyVal.dict [("bold", PyVal.bool true)], none, none⟩
        false
        (Token.kwScope "hover_text" :: Token.equals :: Token.scopeOpen ::
          [Token.text "Hello, World!", Token.scopeClose])
      = .ok ([("hoverEvent", PyVal.dict [("action", PyVal.str "show_text"),
          ("contents", PyVal.list [PyVal.str "",
            PyVal.dict [("text", PyVal.str "Hello, World!")]])])],
          ⟨[], [], PyVal.dict [("bold", PyVal.bool true)], none, none⟩, [])
    ∧ [PyVal.str "", PyVal.dict [("text", PyVal.str "Hello, World!")]].head?
      = some (PyVal.str "") :=
  c7_hover_text_suspends_parent 30
    ⟨[], [], PyVal.dict [("bold", PyVal.bool true)], none, none⟩
    [Token.text "Hello, World!", Token.scopeClose] []
    [PyVal.str "", PyVal.dict [("text", PyVal.str "Hello, World!")]]
    ⟨[], [], PyVal.str "", none, none⟩ (by rfl) (by rfl)

/-- C3 counterexample: the substitution loop (parser.py lines 445-446)
replaces `%0`, `%1`, ... in ascending order by plain text replacement, so
with template text "%1 %10" and arguments a, b, replacing `%1` also
rewrites the prefix of the argument-less placeholder `%10`, producing
"b b0" where the claim demands that `%10` stay verbatim ("b %10"). -/
theorem c3_counterexample :
    parse_standalone 60
      ⟨[], [("$t", PyVal.list [PyVal.str "",
        PyVal.dict [("text", PyVal.str "%1 %10")]])], PyVal.str "", none, none⟩
      false
      [Token.template "$t", Token.comma, Token.string "\"a\"", Token.comma,
       Token.string "\"b\"", Token.braceClose]
    = .ok (PyVal.list [PyVal.str "", PyVal.dict [("text", PyVal.str "b b0")]],
        ⟨[], [("$t", PyVal.list [PyVal.str "",
          PyVal.dict [("text", PyVal.str "%1 %10")]])], PyVal.str "", none, none⟩, [])
    ∧ PyVal.str "b b0" ≠ PyVal.str "b %10" := by
  refine ⟨by rfl, by simp⟩

/-- C3 amended: template substitution is a naive ascending textual
replacement on the serialized fragment.  A placeholder whose index has a
supplied argument is replaced by it, arguments whose placeholders do not
occur anywhere in the serialized fragment are silently ignored, and a
placeholder with no corresponding argument stays verbatim only when no
supplied smaller index is a textual prefix of it: substituting `%1` with
two or more arguments corrupts an occurrence of `%10` into the second
argument followed by "0". -/
theorem c3_template_substitution :
    (∀ (s : String) (args : List String),
      (∀ j, j < args.length → containsSub s.data (placeholder j) = false) →
      substituteArgs s args = s)
    ∧ parse_standalone 60
      ⟨[], [("$u", PyVal.list [PyVal.str "",
        PyVal.dict [("text", PyVal.str "Go away, %0")]])], PyVal.str "", none, none⟩
      false
      [Token.template "$u", Token.comma, Token.string "\"Felix\"", Token.braceClose]
    = .ok (PyVal.list [PyVal.str "",
        PyVal.dict [("text", PyVal.str "Go away, Felix")]],
        ⟨[], [("$u", PyVal.list [PyVal.str "",
          PyVal.dict [("text", PyVal.str "Go away, %0")]])], PyVal.str "", none, none⟩, [])
    ∧ parse_standalone 60
      ⟨[], [("$u", PyVal.list [PyVal.str "",
        PyVal.dict [("text", PyVal.str "Go away, %0")]])], PyVal.str "", none, none⟩
      false
      [Token.template "$u", Token.braceClose]
    = .ok (PyVal.list [PyVal.str "",
        PyVal.dict [("text", PyVal.str "Go away, %0")]],
        ⟨[], [("$u", PyVal.list [PyVal.str "",
          PyVal.dict [("text", PyVal.str "Go away, %0")]])], PyVal.str "", none, none⟩, [])
    ∧ expand_template_value
        (PyVal.list [PyVal.str "", PyVal.dict [("text", PyVal.str "%1 %10")]])
        ["a", "b"]
      = some (PyVal.list [PyVal.str "", PyVal.dict [("text", PyVal.str "b b0")]]) := by
  refine ⟨substituteArgs_not_contains, by rfl, by rfl, by rfl⟩

/-- Witness for `c3_template_substitution`: the general ignored-arguments
clause at a concrete serialized fragment with no placeholders. -/
theorem c3_template_substitution_witness :
    substituteArgs "no placeholders here" ["x", "y", "z"] = "no placeholders here" :=
  c3_template_substitution.1 "no placeholders here" ["x", "y", "z"] (by decide)

/-- C9 confirmed: (1) `add_template` stores a fragment whose first element
is `self.parent or ""` as of definition time, retrievable under the
`$`-prefixed name; (2) a later template expansion (with no trailing
modifier list) is fully determined by the stored fragment and the
supplied arguments — the expansion-time parent style appears nowhere in
the result, which returns the instance state unchanged; (3) concretely,
a template captured under an italic parent expands, under an underlined
parent, to exactly the captured italic-headed fragment. -/
theorem c9_template_captures_parent :
    (∀ (fuel : Nat) (st : ParserState) (name : String) (toks : List Token)
       (v : PyVal) (st1 : ParserState),
      add_template fuel st name toks = .ok (v, st1) →
      (∃ items, v = PyVal.list (parentOr st.parent :: items))
      ∧ lookupA st1.templates (normalize_name "$" name) = some v)
    ∧ (∀ (fuel : Nat) (st : ParserState) (sc : Bool) (q : String)
        (argToks rest2 : List Token) (args : List String) (stored : PyVal),
      lookupA st.templates q = some stored →
      parse_template_args fuel argToks = .ok (args, Token.braceClose :: rest2) →
      getTok .parenOpen rest2 = none →
      parse_standalone (fuel + 2) st sc (Token.template q :: argToks)
        = match expand_template_value stored args with
          | some v => .ok (v, st, rest2)
          | none => .error .jsonDecodeError)
    ∧ add_template 40
        ⟨[], [], PyVal.dict [("italic", PyVal.bool true)], none, none⟩
        "template" [Token.text "Hello"]
      = .ok (PyVal.list [PyVal.dict [("italic", PyVal.bool true)],
          PyVal.dict [("text", PyVal.str "Hello")]],
          ⟨[], [("$template", PyVal.list [PyVal.dict [("italic", PyVal.bool true)],
            PyVal.dict [("text", PyVal.str "Hello")]])],
            PyVal.dict [("italic", PyVal.bool true)], none, none⟩)
    ∧ parse_standalone 60
        ⟨[], [("$template", PyVal.list [PyVal.dict [("italic", PyVal.bool true)],
          PyVal.dict [("text", PyVal.str "Hello")]])],
          PyVal.dict [("underlined", PyVal.bool true)], none, none⟩ false
        [Token.template "$template", Token.braceClose]
      = .ok (PyVal.list [PyVal.dict [("italic", PyVal.bool true)],
          PyVal.dict [("text", PyVal.str "Hello")]],
          ⟨[], [("$template", PyVal.list [PyVal.dict [("italic", PyVal.bool true)],
            PyVal.dict [("text", PyVal.str "Hello")]])],
            PyVal.dict [("underlined", PyVal.bool true)], none, none⟩, []) := by
  refine ⟨?_, ?_, by rfl, by rfl⟩
  · intro fuel st name toks v st1 h
    simp only [add_template] at h
    split at h
    · exact Except.noConfusion h
    · split at h
      · exact Except.noConfusion h
      · rename_i heq
        simp only [Except.ok.injEq, Prod.mk.injEq] at h
        obtain ⟨h1, h2⟩ := h
        subst h1
        constructor
        · obtain ⟨items, hi⟩ := internal_parse_head _ _ _ _ _ _ _ heq
          exact ⟨items, by rw [hi]⟩
        · rw [← h2]
          exact lookupA_setKeyA_self _ _ _
  · intro fuel st sc q argToks rest2 args stored hlook hargs hnp
    simp only [parse_standalone, parse_standalone_first, hlook, hargs]
    cases hE : expand_template_value stored args with
    | none => rfl
    | some v =>
      simp only [expectTok, reduceIte, hnp]

/-- Witness for `c9_template_captures_parent`: the general clauses applied
at the italic-parent capture and an argument-free expansion. -/
theorem c9_template_captures_parent_witness :
    ((∃ items, PyVal.list [PyVal.dict [("italic", PyVal.bool true)],
        PyVal.dict [("text", PyVal.str "Hello")]]
      = PyVal.list (parentOr
          (⟨[], [], PyVal.dict [("italic", PyVal.bool true)], none, none⟩ :
            ParserState).parent :: items))
      ∧ lookupA (⟨[], [("$template", PyVal.list
            [PyVal.dict [("italic", PyVal.bool true)],
             PyVal.dict [("text", PyVal.str "Hello")]])],
          PyVal.dict [("italic", PyVal.bool true)], none, none⟩ :
            ParserState).templates (normalize_name "$" "template")
        = some (PyVal.list [PyVal.dict [("italic", PyVal.bool true)],
            PyVal.dict [("text", PyVal.str "Hello")]]))
    ∧ parse_standalone 42
        ⟨[], [("$template", PyVal.list [PyVal.dict [("italic", PyVal.bool true)],
          PyVal.dict [("text", PyVal.str "Hello")]])],
          PyVal.dict [("underlined", PyVal.bool true)], none, none⟩ false
        (Token.template "$template" :: [Token.braceClose])
      = match expand_template_value
          (PyVal.list [PyVal.dict [("italic", PyVal.bool true)],
            PyVal.dict [("text", PyVal.str "Hello")]]) [] with
        | some v => .ok (v,
            ⟨[], [("$template", PyVal.list [PyVal.dict [("italic", PyVal.bool true)],
              PyVal.dict [("text", PyVal.str "Hello")]])],
              PyVal.dict [("underlined", PyVal.bool true)], none, none⟩, [])
        | none => .error .jsonDecodeError :=
  ⟨c9_template_captures_parent.1 40
      ⟨[], [], PyVal.dict [("italic", PyVal.bool true)], none, none⟩
      "template" [Token.text "Hello"]
      (PyVal.list [PyVal.dict [("italic", PyVal.bool true)],
        PyVal.dict [("text", PyVal.str "Hello")]])
      ⟨[], [("$template", PyVal.list [PyVal.dict [("italic", PyVal.bool true)],
        PyVal.dict [("text", PyVal.str "Hello")]])],
        PyVal.dict [("italic", PyVal.bool true)], none, none⟩ (by rfl),
   c9_template_captures_parent.2.1 40
      ⟨[], [("$template", PyVal.list [PyVal.dict [("italic", PyVal.bool true)],
        PyVal.dict [("text", PyVal.str "Hello")]])],
        PyVal.dict [("underlined", PyVal.bool true)], none, none⟩ false
      "$template" [Token.braceClose] [] []
      (PyVal.list [PyVal.dict [("italic", PyVal.bool true)],
        PyVal.dict [("text", PyVal.str "Hello")]])
      (by rfl) (by rfl) (by rfl)⟩
